import Mathlib

/-!
Shallow embedding of the MarketMind analytics routines (src/app.py) and
verification of the specified properties.

Modelling conventions:
- pandas/python numbers are modelled exactly: position counts as `ℤ`
  (Streamlit `number_input` with integer defaults), price/volume series as
  `List ℚ` ordered by time, Gann arithmetic (which uses a real square root)
  over `ℝ`.
- Python's true division raising `ZeroDivisionError` on integer inputs is
  modelled by an `Option` result (`none` = the call raises).
- pandas `Series.iloc[-1]` on a list is `getLastD`, `rolling(w).mean().iloc[-1]`
  is the arithmetic mean of the last `w` entries (defined only when the series
  has at least `w` entries; callers guard with length checks, mirroring the
  source's length guards / NaN omission).
-/

namespace MarketMind

/-- Alias table `name_map` from `fix_ticker` (src/app.py lines 33-48). -/
def name_map : List (String × String) :=
  [("NIFTY", "^NSEI"),
   ("NIFTY50", "^NSEI"),
   ("BANKNIFTY", "^NSEBANK"),
   ("VEDANTA", "VEDL"),
   ("HDFC", "HDFCBANK"),
   ("BAJFIN", "BAJFINANCE"),
   ("M&M", "M&M"),
   ("MAHINDRA", "M&M"),
   ("MARUTI", "MARUTI"),
   ("TITAN", "TITAN"),
   ("AIRTEL", "BHARTIARTL"),
   ("JIO", "JIOFIN"),
   ("POWERGRID", "POWERGRID"),
   ("ETERNAL", "ZOMATO")]

/-- Python `str.strip()`: remove leading and trailing whitespace, modelled
structurally on the character list of the string. -/
def py_strip (s : String) : String :=
  String.mk (((s.data.dropWhile Char.isWhitespace).reverse.dropWhile
    Char.isWhitespace).reverse)

/-- Python `str.upper()` (ASCII inputs), modelled structurally. -/
def py_upper (s : String) : String := String.mk (s.data.map Char.toUpper)

/-- Python `str.endswith`, modelled structurally. -/
def py_endswith (s suf : String) : Bool := suf.data.isSuffixOf s.data

/-- Python `str.startswith`, modelled structurally. -/
def py_startswith (s pre : String) : Bool := pre.data.isPrefixOf s.data

/-- Python string concatenation, modelled structurally. -/
def py_concat (a b : String) : String := String.mk (a.data ++ b.data)

/-- Embedding of `fix_ticker` (src/app.py lines 30-53): strip + uppercase,
alias-table substitution, then exchange-suffix normalisation. -/
def fix_ticker (symbol : String) : String :=
  let s := py_upper (py_strip symbol)
  let s := match name_map.lookup s with
    | some v => v
    | none => s
  if py_endswith s ".NS" || py_endswith s ".BO" || py_startswith s "^" then s
  else py_concat s ".NS"

/-- Embedding of `calculate_gann_levels` (src/app.py lines 77-89): the fixed
9-point Square-of-Nine projection around `sqrt price`. -/
noncomputable def calculate_gann_levels (price : ℝ) : List ℝ :=
  let sq := Real.sqrt price
  [(sq - 2) ^ 2,
   (sq - 1) ^ 2,
   (sq - 0.5) ^ 2,
   (sq - 0.25) ^ 2,
   price,
   (sq + 0.25) ^ 2,
   (sq + 0.5) ^ 2,
   (sq + 1) ^ 2,
   (sq + 2) ^ 2]

/-- Embedding of `analyze_smart_money` (src/app.py lines 182-226).
Inputs are the six integer position counts; the result carries the signal
label, its colour, and the three bullish percentages. `none` models the
`ZeroDivisionError` Python raises when `total_fii ≠ 0` but `total_dii = 0`
(at `dii_L / total_dii`) or `total_cli = 0` (at `cli_L / total_cli`).
The human-readable `msg` component (pure presentation text interpolating the
same percentages) is not modelled; no verified property mentions it. -/
def analyze_smart_money (fii_L fii_S dii_L dii_S cli_L cli_S : ℤ) :
    Option (String × String × ℚ × ℚ × ℚ) :=
  let total_fii := fii_L + fii_S
  let total_dii := dii_L + dii_S
  let total_cli := cli_L + cli_S
  if total_fii = 0 then some ("WAITING", "gray", 0, 0, 0)
  else if total_dii = 0 ∨ total_cli = 0 then none
  else
    let fii_bull : ℚ := (fii_L : ℚ) / (total_fii : ℚ) * 100
    let dii_bull : ℚ := (dii_L : ℚ) / (total_dii : ℚ) * 100
    let cli_bull : ℚ := (cli_L : ℚ) / (total_cli : ℚ) * 100
    let insti_trend : String :=
      if fii_bull > 60 ∧ dii_bull > 60 then "BULLISH"
      else if fii_bull < 40 ∧ dii_bull < 40 then "BEARISH"
      else "NEUTRAL / FIGHT"
    if insti_trend = "NEUTRAL / FIGHT" then
      some ("⚠️ CHOPPY / RANGEBOUND", "orange", fii_bull, dii_bull, cli_bull)
    else if insti_trend = "BULLISH" then
      if cli_bull < 40 then
        some ("🟢 SMART RALLY (Buy Dips)", "green", fii_bull, dii_bull, cli_bull)
      else
        some ("🟢 UPTREND (Crowded)", "#90ee90", fii_bull, dii_bull, cli_bull)
    else if insti_trend = "BEARISH" then
      if cli_bull > 60 then
        some ("🔴 BRUTAL CRASH AHEAD", "red", fii_bull, dii_bull, cli_bull)
      else
        some ("🔴 DOWNTREND", "#ffcccb", fii_bull, dii_bull, cli_bull)
    else
      some ("NEUTRAL", "gray", fii_bull, dii_bull, cli_bull)

/-- Arithmetic mean of a list, pandas `Series.mean()`. -/
def listMean (xs : List ℚ) : ℚ := xs.sum / (xs.length : ℚ)

/-- pandas `rolling(w).mean().iloc[-1]`: mean of the last `w` entries. -/
def rollingMeanLast (w : Nat) (xs : List ℚ) : ℚ :=
  listMean (xs.drop (xs.length - w))

/-- pandas `rolling(w).mean().shift(lag).iloc[-1]`: the rolling mean read
`lag` positions before the final index. -/
def rollingMeanAtLag (w lag : Nat) (xs : List ℚ) : ℚ :=
  rollingMeanLast w (xs.take (xs.length - lag))

/-- Verdict thresholds of the Stage 2 scan loop (src/app.py lines 390-396),
as a function of `dist = (curr - ma)/ma*100`. -/
def stage2_status (dist : ℚ) : String :=
  if dist > 20 then "⚠️ Overheated"
  else if dist > 5 then "🚀 Strong Trend"
  else if dist > 0 then "✅ Early Entry"
  else "❌ Stage 4 (Avoid)"

/-- Embedding of one iteration of the Stage 2 scan loop (src/app.py lines
383-399) on a close series: skip (`none`) when fewer than 30 bars, else
distance above the 30-bar moving average and the verdict string. -/
def stage2_classify (closes : List ℚ) : Option (ℚ × String) :=
  if closes.length < 30 then none
  else
    let curr := closes.getLastD 0
    let ma := rollingMeanLast 30 closes
    let dist := (curr - ma) / ma * 100
    some (dist, stage2_status dist)

/-- Intensity bands of the Hype Meter loop (src/app.py lines 439-446). -/
def hype_tag (fac : ℚ) : String :=
  if fac > 5 then "🚀 EXPLOSIVE"
  else if fac > 2 then "🔥 HOT"
  else if fac > 1 then "🌿 ACTIVE"
  else "❄️ COLD"

/-- Stale-session fallback of the Hype Meter loop (src/app.py lines 427-431):
last volume if positive, else the second-to-last. -/
def hype_v (vols : List ℚ) : ℚ :=
  if vols.getLastD 0 > 0 then vols.getLastD 0 else vols.dropLast.getLastD 0

/-- `fac = v / df["Volume"].mean()` (src/app.py line 438): the spike factor
divides by the mean over the FULL fetched window. -/
def hype_fac (vols : List ℚ) : ℚ := hype_v vols / listMean vols

/-- Embedding of one iteration of the Hype Meter scan loop (src/app.py lines
422-448) on a volume series: skip when fewer than 5 bars or when the factor
does not exceed the sensitivity; otherwise the factor and its tag. -/
def hype_scan (vols : List ℚ) (sens : ℚ) : Option (ℚ × String) :=
  if vols.length < 5 then none
  else
    let fac := hype_fac vols
    if fac > sens then some (fac, hype_tag fac) else none

/-- Relative-strength series `rs = (s / i) * 100` of the Sector Compass
(src/app.py line 309). -/
def rsSeries (s i : List ℚ) : List ℚ :=
  List.zipWith (fun a b => a / b * 100) s i

/-- `(rs / rs.rolling(20).mean()).shift(lag).iloc[-1] * 100` (src/app.py
lines 310-313): the normalised-strength reading `lag` periods before the
final index. -/
def ratioAtLag (lag : Nat) (rs : List ℚ) : ℚ :=
  let pre := rs.take (rs.length - lag)
  pre.getLastD 0 / rollingMeanLast 20 pre * 100

/-- Embedding of the Sector Compass ratio/momentum computation (src/app.py
lines 308-313) for one sector series `s` against benchmark `i`; `none` when
fewer than 30 bars are available (the 20-bar rolling window shifted by 10 is
then NaN and the sector is omitted). -/
def rrg (s i : List ℚ) : Option (ℚ × ℚ) :=
  let rs := rsSeries s i
  if rs.length < 30 then none
  else
    let ratio := ratioAtLag 0 rs
    let mom := ratio / ratioAtLag 10 rs * 100
    some (ratio, mom)

/-- Embedding of the quadrant classification conditional (src/app.py lines
314-322). -/
def quadrant (ratio mom : ℚ) : String :=
  if ratio > 100 ∧ mom > 100 then "Leading"
  else if ratio > 100 then "Weakening"
  else if ratio < 100 ∧ mom < 100 then "Lagging"
  else "Improving"

/-! ## Verified properties -/

/-- C4 counterexample: `fix_ticker "niftybank"` does NOT return the caret-
prefixed Bank Nifty index code: the alias table keys the nickname as
"BANKNIFTY", so "niftybank" falls through and gets the default ".NS" suffix. -/
theorem C4_counterexample :
    fix_ticker "niftybank" = "NIFTYBANK.NS" ∧
    fix_ticker "niftybank" ≠ "^NSEBANK" := by
  decide

/-- C4 (amended): `fix_ticker "banknifty"` returns the canonical Bank Nifty
index code "^NSEBANK", and `fix_ticker " reliance "` returns "RELIANCE" with
the default exchange suffix appended ("RELIANCE.NS"). -/
theorem C4_normalizer_scenarios :
    fix_ticker "banknifty" = "^NSEBANK" ∧
    fix_ticker " reliance " = "RELIANCE.NS" := by
  decide

/-- C5: `calculate_gann_levels` returns exactly 9 values in the fixed
Square-of-Nine order around `s = sqrt price`; the middle value (index 4) is
the anchor price itself, in particular 100 for anchor 100; and for any anchor
price above 4 the nine values are strictly increasing. -/
theorem C5_gann_levels_spec :
    (∀ p : ℝ, calculate_gann_levels p =
        [(Real.sqrt p - 2) ^ 2, (Real.sqrt p - 1) ^ 2, (Real.sqrt p - 0.5) ^ 2,
         (Real.sqrt p - 0.25) ^ 2, p, (Real.sqrt p + 0.25) ^ 2,
         (Real.sqrt p + 0.5) ^ 2, (Real.sqrt p + 1) ^ 2, (Real.sqrt p + 2) ^ 2] ∧
      (calculate_gann_levels p).length = 9 ∧
      (calculate_gann_levels p).getD 4 0 = p) ∧
    (calculate_gann_levels 100).getD 4 0 = 100 ∧
    (∀ p : ℝ, 4 < p → List.Chain' (· < ·) (calculate_gann_levels p)) := by
  refine ⟨fun p => ⟨rfl, rfl, rfl⟩, rfl, fun p hp => ?_⟩
  have h4 : Real.sqrt 4 = 2 := by
    rw [show (4:ℝ) = 2 ^ 2 by norm_num, Real.sqrt_sq (by norm_num : (0:ℝ) ≤ 2)]
  have hs : (2:ℝ) < Real.sqrt p := h4 ▸ Real.sqrt_lt_sqrt (by norm_num) hp
  have hsq : Real.sqrt p ^ 2 = p := Real.sq_sqrt (by linarith)
  simp only [calculate_gann_levels, List.chain'_cons, List.chain'_singleton]
  refine ⟨?_, ?_, ?_, ?_, ?_, ?_, ?_, ?_, trivial⟩ <;> nlinarith [hs, hsq]

/-- C5 witness: the strict-increase part evaluated at anchor price 100. -/
theorem C5_witness :
    (4:ℝ) < 100 ∧ List.Chain' (· < ·) (calculate_gann_levels 100) :=
  ⟨by norm_num, C5_gann_levels_spec.2.2 100 (by norm_num)⟩

/-- Bounds for a bullish percentage `long / (long + short) * 100` with
non-negative counts and a non-zero total. -/
theorem bull_pct_bounds (a b : ℤ) (ha : 0 ≤ a) (hb : 0 ≤ b) (hab : a + b ≠ 0) :
    0 ≤ (a : ℚ) / ((a + b : ℤ) : ℚ) * 100 ∧ (a : ℚ) / ((a + b : ℤ) : ℚ) * 100 ≤ 100 := by
  have ht : (0:ℚ) < ((a + b : ℤ) : ℚ) := by
    have : 0 < a + b := lt_of_le_of_ne (by linarith) (Ne.symm hab)
    exact_mod_cast this
  constructor
  · have : (0:ℚ) ≤ (a : ℚ) / ((a + b : ℤ) : ℚ) :=
      div_nonneg (by exact_mod_cast ha) ht.le
    linarith
  · have h1 : (a : ℚ) / ((a + b : ℤ) : ℚ) ≤ 1 := by
      rw [div_le_one ht]
      have hb' : (0:ℚ) ≤ (b:ℚ) := by exact_mod_cast hb
      push_cast
      linarith
    linarith

/-- C1 counterexample: a call where one participant class has total zero
(DII longs + shorts = 0) but the FII total is non-zero raises a
`ZeroDivisionError` (modelled by `none`) instead of returning the
"awaiting input" sentinel. -/
theorem C1_counterexample :
    (0 : ℤ) + 0 = 0 ∧ analyze_smart_money 1 1 0 0 1 1 = none := by
  constructor
  · rfl
  · norm_num [analyze_smart_money]

/-- C1 (amended): the "WAITING" idle sentinel with all three percentages 0 is
returned exactly when the FII total is zero (in particular when all six counts
are zero); when the FII total is non-zero and the DII or client total is zero,
the call raises a division error (`none`) instead. -/
theorem C1_idle_guard :
    (∀ fL fS dL dS cL cS : ℤ, fL + fS = 0 →
      analyze_smart_money fL fS dL dS cL cS = some ("WAITING", "gray", 0, 0, 0)) ∧
    (∀ fL fS dL dS cL cS : ℤ, fL + fS ≠ 0 → (dL + dS = 0 ∨ cL + cS = 0) →
      analyze_smart_money fL fS dL dS cL cS = none) := by
  constructor
  · intro fL fS dL dS cL cS h
    simp [analyze_smart_money, h]
  · intro fL fS dL dS cL cS h hz
    simp [analyze_smart_money, h, hz]

/-- C1 witness: the all-zero boundary call returns the sentinel, and a call
with zero DII total but non-zero FII total raises. -/
theorem C1_witness :
    analyze_smart_money 0 0 0 0 0 0 = some ("WAITING", "gray", 0, 0, 0) ∧
    analyze_smart_money 2 3 0 0 4 5 = none :=
  ⟨C1_idle_guard.1 0 0 0 0 0 0 (by norm_num),
   C1_idle_guard.2 2 3 0 0 4 5 (by norm_num) (Or.inl (by norm_num))⟩

/-- C9: for non-negative position counts with all three class totals non-zero,
the analyzer returns a signal whose three bullish percentages lie in [0,100]
and whose label belongs to the fixed closed label set; the initialised
placeholder "NEUTRAL" is never returned. -/
theorem C9_signal_wellformed (fL fS dL dS cL cS : ℤ)
    (hfL : 0 ≤ fL) (hfS : 0 ≤ fS) (hdL : 0 ≤ dL) (hdS : 0 ≤ dS)
    (hcL : 0 ≤ cL) (hcS : 0 ≤ cS)
    (hf : fL + fS ≠ 0) (hd : dL + dS ≠ 0) (hc : cL + cS ≠ 0) :
    ∃ sig col fb db cb,
      analyze_smart_money fL fS dL dS cL cS = some (sig, col, fb, db, cb) ∧
      0 ≤ fb ∧ fb ≤ 100 ∧ 0 ≤ db ∧ db ≤ 100 ∧ 0 ≤ cb ∧ cb ≤ 100 ∧
      sig ∈ (["⚠️ CHOPPY / RANGEBOUND", "🟢 SMART RALLY (Buy Dips)",
              "🟢 UPTREND (Crowded)", "🔴 BRUTAL CRASH AHEAD",
              "🔴 DOWNTREND"] : List String) ∧
      sig ≠ "NEUTRAL" := by
  have hfb := bull_pct_bounds fL fS hfL hfS hf
  have hdb := bull_pct_bounds dL dS hdL hdS hd
  have hcb := bull_pct_bounds cL cS hcL hcS hc
  simp only [analyze_smart_money, if_neg hf, if_neg (by tauto : ¬(dL + dS = 0 ∨ cL + cS = 0))]
  split_ifs <;>
    first
      | (refine ⟨_, _, _, _, _, rfl, hfb.1, hfb.2, hdb.1, hdb.2, hcb.1, hcb.2,
          by decide, by decide⟩)
      | (exact absurd rfl (by assumption))

/-- C9 witness: a concrete balanced call (all classes 50% bullish) yields the
"choppy" label with in-range percentages. -/
theorem C9_witness :
    ∃ sig col fb db cb,
      analyze_smart_money 1 1 1 1 1 1 = some (sig, col, fb, db, cb) ∧
      0 ≤ fb ∧ fb ≤ 100 ∧ 0 ≤ db ∧ db ≤ 100 ∧ 0 ≤ cb ∧ cb ≤ 100 ∧
      sig ∈ (["⚠️ CHOPPY / RANGEBOUND", "🟢 SMART RALLY (Buy Dips)",
              "🟢 UPTREND (Crowded)", "🔴 BRUTAL CRASH AHEAD",
              "🔴 DOWNTREND"] : List String) ∧
      sig ≠ "NEUTRAL" :=
  C9_signal_wellformed 1 1 1 1 1 1 (by norm_num) (by norm_num) (by norm_num)
    (by norm_num) (by norm_num) (by norm_num) (by norm_num) (by norm_num) (by norm_num)

/-- Dropping from a replicated list leaves a replicated list. -/
theorem drop_replicate (k n : Nat) (a : ℚ) :
    (List.replicate n a).drop k = List.replicate (n - k) a := by
  induction k generalizing n with
  | zero => simp
  | succ k ih =>
    cases n with
    | zero => simp
    | succ n => simp [ih n]

/-- Taking from a replicated list leaves a replicated list. -/
theorem take_replicate (k n : Nat) (a : ℚ) :
    (List.replicate n a).take k = List.replicate (min k n) a := by
  induction k generalizing n with
  | zero => simp
  | succ k ih =>
    cases n with
    | zero => simp
    | succ n =>
      simp only [List.replicate_succ, List.take_succ_cons, ih,
        Nat.succ_min_succ]

/-- The optional last element of a non-empty replicated list. -/
theorem getLast?_replicate (n : Nat) (a : ℚ) (h : n ≠ 0) :
    (List.replicate n a).getLast? = some a := by
  cases n with
  | zero => exact absurd rfl h
  | succ m => rw [List.replicate_succ', List.getLast?_concat]

/-- The last element of a non-empty replicated list. -/
theorem getLastD_replicate (n : Nat) (a d : ℚ) (h : n ≠ 0) :
    (List.replicate n a).getLastD d = a := by
  rw [List.getLastD_eq_getLast?, getLast?_replicate n a h]
  rfl

/-- The last element of a list with an appended singleton. -/
theorem getLastD_append_single (l : List ℚ) (a d : ℚ) :
    (l ++ [a]).getLastD d = a := by
  rw [List.getLastD_eq_getLast?, List.getLast?_concat]
  rfl

/-- The mean of a non-empty replicated list is the replicated value. -/
theorem listMean_replicate (n : Nat) (a : ℚ) (h : n ≠ 0) :
    listMean (List.replicate n a) = a := by
  have hn : (n:ℚ) ≠ 0 := Nat.cast_ne_zero.mpr h
  simp only [listMean, List.sum_replicate, List.length_replicate, nsmul_eq_mul]
  field_simp

/-- The Stage 2 verdict is a qualifying (non-"Stage 4") stage exactly when
the distance above the moving average is positive. -/
theorem stage2_status_ne_stage4_iff (d : ℚ) :
    stage2_status d ≠ "❌ Stage 4 (Avoid)" ↔ 0 < d := by
  unfold stage2_status
  split_ifs with h1 h2 h3
  · exact iff_of_true (by decide) (by linarith)
  · exact iff_of_true (by decide) (by linarith)
  · exact iff_of_true (by decide) h3
  · exact iff_of_false (fun h => h rfl) h3

/-- C3 counterexample: a 35-bar close series whose 30-bar moving average is
FALLING (current MA 310/3 is far below its value 250 from 5 bars earlier)
still receives the qualifying verdict "⚠️ Overheated", because the code never
checks the slope of the moving average. -/
theorem C3_counterexample :
    stage2_classify (List.replicate 5 (1000:ℚ) ++ List.replicate 29 100 ++ [200]) =
      some (2900/31, "⚠️ Overheated") ∧
    rollingMeanLast 30 (List.replicate 5 (1000:ℚ) ++ List.replicate 29 100 ++ [200]) <
      rollingMeanAtLag 30 5 (List.replicate 5 (1000:ℚ) ++ List.replicate 29 100 ++ [200]) := by
  constructor
  · norm_num [stage2_classify, rollingMeanLast, listMean, stage2_status,
      List.replicate_succ, List.getLastD_cons]
  · norm_num [rollingMeanAtLag, rollingMeanLast, listMean,
      List.replicate_succ, List.getLastD_cons]

/-- C3 (amended): for a series with at least 30 bars and a positive 30-bar
moving average, the Stage 2 scan classifies it (no omission), and the verdict
is a qualifying uptrend stage if and only if the current close is above the
current 30-bar moving average — the code imposes no rising-MA condition. -/
theorem C3_qualify_iff_above_ma (closes : List ℚ) (hlen : 30 ≤ closes.length)
    (hma : 0 < rollingMeanLast 30 closes) :
    ∃ d, stage2_classify closes = some (d, stage2_status d) ∧
      (stage2_status d ≠ "❌ Stage 4 (Avoid)" ↔
        rollingMeanLast 30 closes < closes.getLastD 0) := by
  refine ⟨(closes.getLastD 0 - rollingMeanLast 30 closes) /
      rollingMeanLast 30 closes * 100, ?_, ?_⟩
  · simp [stage2_classify, Nat.not_lt.mpr hlen]
  · rw [stage2_status_ne_stage4_iff]
    have key : (closes.getLastD 0 - rollingMeanLast 30 closes) /
        rollingMeanLast 30 closes * 100 =
        (closes.getLastD 0 - rollingMeanLast 30 closes) * 100 /
        rollingMeanLast 30 closes := by ring
    rw [key, lt_div_iff₀ hma]
    constructor
    · intro h; nlinarith
    · intro h; nlinarith

/-- C3 witness: a flat 30-bar series is classified (not omitted) and — the
close sitting exactly on the moving average — gets the non-qualifying
verdict. -/
theorem C3_witness :
    30 ≤ (List.replicate 30 (100:ℚ)).length ∧
    0 < rollingMeanLast 30 (List.replicate 30 (100:ℚ)) ∧
    ∃ d, stage2_classify (List.replicate 30 (100:ℚ)) = some (d, stage2_status d) ∧
      (stage2_status d ≠ "❌ Stage 4 (Avoid)" ↔
        rollingMeanLast 30 (List.replicate 30 (100:ℚ)) <
          (List.replicate 30 (100:ℚ)).getLastD 0) :=
  ⟨by simp,
   by norm_num [rollingMeanLast, drop_replicate, listMean_replicate],
   C3_qualify_iff_above_ma _ (by simp)
     (by norm_num [rollingMeanLast, drop_replicate, listMean_replicate])⟩

/-- C8 counterexample: a 32-bar series — fewer than the claimed minimum of
35 bars — is NOT omitted: the code's guard only requires 30 bars, so the
series is classified. -/
theorem C8_counterexample :
    (List.replicate 32 (50:ℚ)).length < 35 ∧
    stage2_classify (List.replicate 32 (50:ℚ)) = some (0, "❌ Stage 4 (Avoid)") := by
  constructor
  · simp
  · norm_num [stage2_classify, rollingMeanLast, stage2_status,
      drop_replicate, listMean_replicate, getLast?_replicate 32 (50:ℚ) (by norm_num)]

/-- C8 (amended): the Stage 2 scan omits a symbol exactly below the code's
actual minimum of 30 bars: any series with fewer than 30 bars yields no
result. -/
theorem C8_min_bars (closes : List ℚ) (h : closes.length < 30) :
    stage2_classify closes = none := by
  simp [stage2_classify, h]

/-- C8 witness: a 4-bar series is omitted. -/
theorem C8_witness :
    (List.replicate 4 (1:ℚ)).length < 30 ∧
    stage2_classify (List.replicate 4 (1:ℚ)) = none :=
  ⟨by simp, C8_min_bars _ (by simp)⟩

/-- C2 counterexample: for the 20-bar series of nineteen 1-volumes followed
by volume 6 (which is exactly 6 times the mean of the other 19 bars) at
sensitivity 1, the scan reports spike factor 24/5 = 4.8 — not approximately
6.0 — and the mid-intensity "🔥 HOT" tag rather than the highest one, because
the divisor is the mean over the FULL window (which includes the spike bar). -/
theorem C2_counterexample :
    (6:ℚ) = 6 * listMean (List.replicate 19 (1:ℚ)) ∧
    hype_scan (List.replicate 19 (1:ℚ) ++ [6]) 1 = some (24/5, "🔥 HOT") ∧
    (24:ℚ)/5 ≠ 6 ∧ ("🔥 HOT" : String) ≠ "🚀 EXPLOSIVE" := by
  refine ⟨by norm_num [listMean_replicate], ?_, by norm_num, by decide⟩
  simp only [hype_scan, hype_fac, hype_v, hype_tag, listMean,
    getLastD_append_single, List.length_append, List.length_replicate,
    List.sum_append, List.sum_replicate, List.sum_cons, List.sum_nil,
    nsmul_eq_mul]
  norm_num

/-- C2 (amended): for any 20-bar positive volume series whose last bar is
exactly 6 times the mean of the first 19 bars, the scan at sensitivity 1
returns spike factor 24/5 (= 4.8, since the mean in the divisor includes the
spike bar) with the "🔥 HOT" tag. -/
theorem C2_spike_factor (xs : List ℚ) (hlen : xs.length = 19)
    (hpos : ∀ x ∈ xs, 0 < x) :
    hype_scan (xs ++ [6 * listMean xs]) 1 = some (24/5, "🔥 HOT") := by
  have hne : xs ≠ [] := by
    intro h
    rw [h] at hlen
    simp at hlen
  have hsum : 0 < xs.sum := List.sum_pos xs hpos hne
  have hm : 0 < listMean xs := by
    rw [listMean, hlen]
    exact div_pos hsum (by norm_num)
  have hsum19 : xs.sum = 19 * listMean xs := by
    rw [listMean, hlen]
    field_simp
  have h20 : (xs ++ [6 * listMean xs]).length = 20 := by simp [hlen]
  have hmean : listMean (xs ++ [6 * listMean xs]) = 5 * listMean xs / 4 := by
    rw [listMean, h20, List.sum_append, List.sum_cons, List.sum_nil, hsum19]
    push_cast
    ring
  have hv : hype_v (xs ++ [6 * listMean xs]) = 6 * listMean xs := by
    rw [hype_v, getLastD_append_single, if_pos (by nlinarith)]
  have hfac : hype_fac (xs ++ [6 * listMean xs]) = 24/5 := by
    rw [hype_fac, hv, hmean]
    rw [div_eq_iff (ne_of_gt (show (0:ℚ) < 5 * listMean xs / 4 by linarith))]
    ring
  simp only [hype_scan, h20, hfac, hype_tag]
  norm_num

/-- C2 witness: the amended spike-factor property at the concrete series of
nineteen 1-volumes. -/
theorem C2_witness :
    (List.replicate 19 (1:ℚ)).length = 19 ∧
    hype_scan (List.replicate 19 (1:ℚ) ++ [6 * listMean (List.replicate 19 (1:ℚ))]) 1 =
      some (24/5, "🔥 HOT") :=
  ⟨by simp,
   C2_spike_factor _ (by simp)
     (fun x hx => by rw [List.eq_of_mem_replicate hx]; norm_num)⟩

/-- Relative strength of a positive series against itself is the constant
100 series. -/
theorem rsSeries_self (s : List ℚ) (h : ∀ x ∈ s, 0 < x) :
    rsSeries s s = List.replicate s.length 100 := by
  induction s with
  | nil => rfl
  | cons a t ih =>
    have ha : a ≠ 0 := ne_of_gt (h a (List.mem_cons_self a t))
    have ht := ih (fun x hx => h x (List.mem_cons_of_mem a hx))
    simp only [rsSeries, List.zipWith_cons_cons, List.length_cons,
      List.replicate_succ] at ht ⊢
    rw [ht, div_self ha]
    norm_num

/-- The normalised-strength reading of a constant-100 series is 100 at any
lag that leaves at least one full rolling window. -/
theorem ratioAtLag_replicate (lag n : Nat) (h : 20 + lag ≤ n) :
    ratioAtLag lag (List.replicate n (100:ℚ)) = 100 := by
  have h1 : min (n - lag) n = n - lag := Nat.min_eq_left (Nat.sub_le n lag)
  have h2 : n - lag ≠ 0 := by omega
  have h3 : n - lag - (n - lag - 20) = 20 := by omega
  simp only [ratioAtLag, List.length_replicate, take_replicate, h1,
    rollingMeanLast, drop_replicate, h3]
  rw [getLastD_replicate _ _ _ h2, listMean_replicate 20 _ (by norm_num)]
  norm_num

/-- C6: a sector series pointwise identical to the benchmark (with at least
30 periods, all closes positive) yields ratio 100 and momentum 100 —
self-comparison neutrality. -/
theorem C6_self_neutrality (s : List ℚ) (hlen : 30 ≤ s.length)
    (hpos : ∀ x ∈ s, 0 < x) :
    rrg s s = some (100, 100) := by
  have hrs := rsSeries_self s hpos
  simp only [rrg, hrs, List.length_replicate]
  rw [if_neg (Nat.not_lt.mpr hlen)]
  rw [ratioAtLag_replicate 0 s.length (by omega),
    ratioAtLag_replicate 10 s.length (by omega)]
  norm_num

/-- C6 witness: self-neutrality at a concrete constant 30-bar series. -/
theorem C6_witness :
    30 ≤ (List.replicate 30 (7:ℚ)).length ∧
    rrg (List.replicate 30 (7:ℚ)) (List.replicate 30 (7:ℚ)) = some (100, 100) :=
  ⟨by simp,
   C6_self_neutrality _ (by simp)
     (fun x hx => by rw [List.eq_of_mem_replicate hx]; norm_num)⟩

/-- C7: the quadrant label follows the 2×2 split around 100 on both axes:
ratio>100 & momentum>100 → Leading; ratio>100 & momentum≤100 → Weakening;
ratio<100 & momentum<100 → Lagging; ratio<100 & momentum≥100 → Improving. -/
theorem C7_quadrant_split (r m : ℚ) :
    (100 < r → 100 < m → quadrant r m = "Leading") ∧
    (100 < r → m ≤ 100 → quadrant r m = "Weakening") ∧
    (r < 100 → m < 100 → quadrant r m = "Lagging") ∧
    (r < 100 → 100 ≤ m → quadrant r m = "Improving") := by
  refine ⟨fun h1 h2 => ?_, fun h1 h2 => ?_, fun h1 h2 => ?_, fun h1 h2 => ?_⟩
  · rw [quadrant, if_pos ⟨h1, h2⟩]
  · rw [quadrant, if_neg (fun hc => absurd hc.2 (not_lt.mpr h2)), if_pos h1]
  · rw [quadrant, if_neg (fun hc => absurd hc.1 (not_lt.mpr h1.le)),
      if_neg (not_lt.mpr h1.le), if_pos ⟨h1, h2⟩]
  · rw [quadrant, if_neg (fun hc => absurd hc.1 (not_lt.mpr h1.le)),
      if_neg (not_lt.mpr h1.le), if_neg (fun hc => absurd hc.2 (not_lt.mpr h2))]

/-- C7 witness: the four quadrant cases at concrete (ratio, momentum)
pairs. -/
theorem C7_witness :
    quadrant 101 102 = "Leading" ∧ quadrant 102 99 = "Weakening" ∧
    quadrant 99 98 = "Lagging" ∧ quadrant 98 101 = "Improving" :=
  ⟨(C7_quadrant_split 101 102).1 (by norm_num) (by norm_num),
   (C7_quadrant_split 102 99).2.1 (by norm_num) (by norm_num),
   (C7_quadrant_split 99 98).2.2.1 (by norm_num) (by norm_num),
   (C7_quadrant_split 98 101).2.2.2 (by norm_num) (by norm_num)⟩

/-- C10: the quadrant classifier is total — every (ratio, momentum) pair gets
one of the four labels — and on the boundary ratio = 100 always yields
Improving, while ratio > 100 with momentum = 100 yields Weakening. -/
theorem C10_quadrant_total (r m : ℚ) :
    (quadrant r m = "Leading" ∨ quadrant r m = "Weakening" ∨
     quadrant r m = "Lagging" ∨ quadrant r m = "Improving") ∧
    (r = 100 → quadrant r m = "Improving") ∧
    (100 < r → m = 100 → quadrant r m = "Weakening") := by
  refine ⟨?_, fun hr => ?_, fun hr hm => ?_⟩
  · unfold quadrant
    split_ifs <;> simp
  · subst hr
    rw [quadrant, if_neg (fun hc => lt_irrefl _ hc.1), if_neg (lt_irrefl 100),
      if_neg (fun hc => lt_irrefl _ hc.1)]
  · subst hm
    rw [quadrant, if_neg (fun hc => lt_irrefl _ hc.2), if_pos hr]

/-- C10 witness: boundary behaviour at concrete pairs. -/
theorem C10_witness :
    quadrant 100 42 = "Improving" ∧ quadrant 123 100 = "Weakening" :=
  ⟨(C10_quadrant_total 100 42).2.1 rfl,
   (C10_quadrant_total 123 100).2.2 (by norm_num) rfl⟩

end MarketMind
